import Mathlib

/-!
Verification of `model_main.py` (ASVspoof-pytorch).

A shallow embedding of the training/evaluation orchestration script: the
waveform length-fitting function `pad`, the amplitude-normalization step, the
MFCC feature assembly, the score-file writer `produce_evaluation_file`, the
per-epoch training procedure `train_epoch`, and the top-level `__main__`
control flow (configuration checks, run-directory creation, and the broad
exception handler around the epoch loop).

Conventions of the embedding:
* NumPy arrays / waveforms are `List ℚ` (or generic `List α` where the code
  never inspects sample values); machine floats are modelled as exact
  rationals.
* External collaborators (the torch model forward pass, `nn.LogSoftmax`, the
  Adam optimizer constructed by `torch.optim.Adam`, `librosa.feature.mfcc`,
  `librosa.feature.delta`, the dataset object) are abstract parameters; the
  script's own control and data flow around them is embedded concretely.
* Fallible Python code is embedded with `Except`/error fields: an uncaught
  Python exception terminates the process with exit status 1, a caught one
  follows the handler's code path.
-/

namespace ASVspoof

/-- Python-level failure outcomes relevant to the embedded fragments.
`emptyInput` is the explicit error kind the spec asks for on zero-length
waveforms; it is included so that statements can compare against it (the
source itself never produces it). -/
inductive PyError where
  | zeroDivisionError : PyError
  | emptyInput : PyError
  | assertionError : String → PyError
  | nameErrorModelCls : PyError
  deriving DecidableEq

/-- Embeds `np.repeat(x, n)` for a 1-D array: every element is repeated `n`
consecutive times, in order (element-wise repetition, not tiling). -/
def npRepeat {α : Type} (x : List α) (n : Nat) : List α :=
  match x with
  | [] => []
  | a :: t => List.replicate n a ++ npRepeat t n

/-- Embeds `pad` (model_main.py, lines 52-60).

The source computes `num_repeats = (max_len / x_len) + 1` with Python float
division and hands that float to `np.repeat`, which truncates it to an
integer (NumPy behavior contemporaneous with this code); the truncated value
is `⌊max_len / x_len⌋ + 1`, embedded with `Nat` division.  For `x_len = 0`
the expression `max_len / x_len` raises `ZeroDivisionError` (the guard
`x_len >= max_len` was already false whenever `max_len > 0`). -/
def pad {α : Type} (x : List α) (max_len : Nat) : Except PyError (List α) :=
  if max_len ≤ x.length then Except.ok (x.take max_len)
  else if x.length = 0 then Except.error PyError.zeroDivisionError
  else Except.ok ((npRepeat x (max_len / x.length + 1)).take max_len)

/-- The length-fitting operation as the spec's words describe it (§4.1, C1):
element-wise repetition with integer repeat factor `⌈max_len / len⌉ + 1`,
then truncation.  Stated only for comparison with `pad`, which is the
embedding of the source. -/
def padSpecCeil {α : Type} (x : List α) (max_len : Nat) : List α :=
  (npRepeat x ((max_len + x.length - 1) / x.length + 1)).take max_len

/-- Peak absolute amplitude of a waveform: `np.max(np.abs(x))`, with `0` for
the empty list. -/
def peakAbs (x : List ℚ) : ℚ :=
  (x.map (fun a => |a|)).foldr max 0

/-- Embeds the amplitude-normalization step `librosa.util.normalize(x)`
(model_main.py, line 246).  `librosa.util.normalize` is an external library
collaborator whose code is not part of this repository; it is embedded from
its documented default semantics (`norm=np.inf`, `axis=0`, `threshold=None`
meaning the smallest positive float of the dtype, `fill=None`): the divisor
is the peak absolute value, and when that peak is below the threshold the
divisor is replaced by `1`, so the input is returned unscaled — there is no
exception path.  The positive float threshold `np.finfo(dtype).tiny` is
abstracted as the parameter `threshold`. -/
def librosa_util_normalize (threshold : ℚ) (x : List ℚ) : List ℚ :=
  let peak := peakAbs x
  let divisor := if peak < threshold then 1 else peak
  x.map (fun a => a / divisor)

/-- Embeds `compute_mfcc_feats` (model_main.py, lines 167-172).
`librosa.feature.mfcc` and `librosa.feature.delta` are external library
collaborators, abstracted as the parameters `mfccF` (taking the sample rate
and the coefficient count fixed by the source: `sr=16000`, `n_mfcc=24`) and
`deltaF`.  Feature maps are lists of rows; `np.concatenate(..., axis=0)` on
row-major 2-D arrays is list append. -/
def compute_mfcc_feats (mfccF : Nat → Nat → List ℚ → List (List ℚ))
    (deltaF : List (List ℚ) → List (List ℚ)) (x : List ℚ) : List (List ℚ) :=
  let mfcc := mfccF 16000 24 x
  let delta := deltaF mfcc
  let delta2 := deltaF delta
  mfcc ++ delta ++ delta2

/-- One dataset sample as seen by `produce_evaluation_file`: the transformed
input `x` fed to the model, plus the metadata fields the function reads:
`batch_meta[1]` (file name), `batch_meta[3]` (system-id index) and
`batch_meta[4]` (ground-truth key label). -/
structure EvalSample (X : Type) where
  x : X
  fname : String
  sys_id : Nat
  key : Nat

/-- The dataset collaborator surface used by `produce_evaluation_file`:
an ordered list of samples, the `sysid_dict_inv` index-to-string mapping,
and the `is_eval` blind-set flag. -/
structure EvalDataset (X : Type) where
  samples : List (EvalSample X)
  sysid_dict_inv : Nat → String
  is_eval : Bool

/-- The four accumulator lists of `produce_evaluation_file`
(`fname_list`, `sys_id_list`, `key_list`, `score_list`). -/
structure ScoreAcc where
  fname_list : List String
  sys_id_list : List String
  key_list : List String
  score_list : List ℚ

/-- Embeds `'bonafide' if key == 1 else 'spoof'` (model_main.py, line 100). -/
def keyOf (key : Nat) : String :=
  if key = 1 then "bonafide" else "spoof"

/-- Per-sample score `batch_out[:, 1] - batch_out[:, 0]` (lines 94-95): the
class-1 logit minus the class-0 logit of the model output. -/
def scoreOf {X : Type} (net : X → ℚ × ℚ) (s : EvalSample X) : ℚ :=
  (net s.x).2 - (net s.x).1

/-- One iteration of the batch loop of `produce_evaluation_file`
(lines 89-104): extend the four accumulator lists with this batch's
file names, keys, resolved system ids and scores. -/
def evalAccStep {X : Type} (net : X → ℚ × ℚ) (sysInv : Nat → String)
    (acc : ScoreAcc) (batch : List (EvalSample X)) : ScoreAcc :=
  ⟨acc.fname_list ++ batch.map (fun s => s.fname),
   acc.sys_id_list ++ batch.map (fun s => sysInv s.sys_id),
   acc.key_list ++ batch.map (fun s => keyOf s.key),
   acc.score_list ++ batch.map (scoreOf net)⟩

/-- Embeds `DataLoader(dataset, batch_size=bs, shuffle=False)`: the dataset split
into consecutive chunks of size `bs` (the last chunk may be shorter).
Structured on a fuel argument for termination; `toBatches` supplies enough
fuel. -/
def toBatchesAux {α : Type} (bs : Nat) : Nat → List α → List (List α)
  | _, [] => []
  | 0, _ :: _ => []
  | Nat.succ fuel, a :: t => (a :: t).take bs :: toBatchesAux bs fuel ((a :: t).drop bs)

/-- The batch sequence an unshuffled `DataLoader` with batch size `bs`
yields on `l`. -/
def toBatches {α : Type} (bs : Nat) (l : List α) : List (List α) :=
  toBatchesAux bs l.length l

/-- Embeds `produce_evaluation_file` (model_main.py, lines 78-112).
The torch model is the abstract forward function `net` returning the two
logits of a sample.  A `DataLoader` with `batch_size=32, shuffle=False`
yields consecutive chunks; the loop extends the four accumulator lists per
batch; then one output line is written per zipped tuple:
`'{f} {s} {k} {cm}'` when the dataset is not a blind-evaluation set and
`'{f} {cm}'` when it is.  The result is the list of written lines (without
the trailing newline characters). -/
def produce_evaluation_file {X : Type} (net : X → ℚ × ℚ) (ds : EvalDataset X) :
    List String :=
  let acc := (toBatches 32 ds.samples).foldl (evalAccStep net ds.sysid_dict_inv)
    ⟨[], [], [], []⟩
  (acc.fname_list.zip (acc.sys_id_list.zip (acc.key_list.zip acc.score_list))).map
    (fun r =>
      if ds.is_eval = false then
        r.1 ++ " " ++ r.2.1 ++ " " ++ r.2.2.1 ++ " " ++ toString r.2.2.2
      else
        r.1 ++ " " ++ toString r.2.2.2)

/-- The line `produce_evaluation_file` is expected to emit for a single
sample (used to state what the batched accumulator pipeline produces). -/
def lineOf {X : Type} (net : X → ℚ × ℚ) (sysInv : Nat → String) (isEval : Bool)
    (s : EvalSample X) : String :=
  if isEval = false then
    s.fname ++ " " ++ sysInv s.sys_id ++ " " ++ keyOf s.key ++ " "
      ++ toString (scoreOf net s)
  else
    s.fname ++ " " ++ toString (scoreOf net s)

/-- Embeds `weight = torch.FloatTensor([1.0, 9.0])` (model_main.py, line 122):
the class-weight pair (class 0, class 1) of the training criterion. -/
def nllWeight : ℚ × ℚ := (1, 9)

/-- Weight of a (binary) target class under a weight pair. -/
def classWeight (w : ℚ × ℚ) (y : Nat) : ℚ :=
  if y = 1 then w.2 else w.1

/-- The log-probability a 2-class row assigns to a (binary) target class. -/
def selectLP (lp : ℚ × ℚ) (y : Nat) : ℚ :=
  if y = 1 then lp.2 else lp.1

/-- Embeds `nn.NLLLoss(weight=w)` on a batch of 2-class log-probability rows with
binary targets: the weighted mean `Σ w[yᵢ]·(−xᵢ[yᵢ]) / Σ w[yᵢ]`
(PyTorch's default `reduction='mean'`). -/
def nll_loss (w : ℚ × ℚ) (rows : List ((ℚ × ℚ) × Nat)) : ℚ :=
  (rows.map (fun r => classWeight w r.2 * (-selectLP r.1 r.2))).sum /
    (rows.map (fun r => classWeight w r.2)).sum

/-- Embeds the `batch_out.max(dim=1)` index on a 2-class row: the predicted class,
ties resolved to the first (lower) index. -/
def predOf (o : ℚ × ℚ) : Nat :=
  if o.1 < o.2 then 1 else 0

/-- The mutable per-epoch accumulators of `train_epoch` (`running_loss`,
`num_correct`, `num_total`), together with the in-place-mutated model
parameters and the optimizer state. -/
structure EpochState (P S : Type) where
  running_loss : ℚ
  num_correct : ℚ
  num_total : ℚ
  params : P
  optState : S

/-- One iteration of the batch loop of `train_epoch` (model_main.py,
lines 126-152): forward pass, `LogSoftmax`, weighted NLL loss with weight
`nllWeight = (1, 9)`, prediction count, accumulator updates
(`running_loss += batch_loss * batch_size`, `num_correct += ...`,
`num_total += batch_size`), then `zero_grad`/`backward`/`step` — the whole
gradient step is the abstract external update `optimStep` on the optimizer
state and the parameters. -/
def batchStep {X P S : Type} (model : P → X → ℚ × ℚ) (lsm : ℚ × ℚ → ℚ × ℚ)
    (optimStep : S → P → List (X × Nat) → S × P)
    (st : EpochState P S) (b : List (X × Nat)) : EpochState P S :=
  let outs := b.map (fun xy => (lsm (model st.params xy.1), xy.2))
  let batch_loss := nll_loss nllWeight outs
  let correct := ((outs.filter (fun r => decide (predOf r.1 = r.2))).length : ℚ)
  let sp := optimStep st.optState st.params b
  ⟨st.running_loss + batch_loss * (b.length : ℚ),
   st.num_correct + correct,
   st.num_total + (b.length : ℚ),
   sp.2, sp.1⟩

/-- The epoch procedure of `train_epoch` run from a given initial optimizer
state `s0`: fold the batch loop from zeroed accumulators, then return
`(running_loss / num_total, num_correct / num_total)` together with the
final (in-place mutated) model parameters. -/
def train_epoch_from {X P S : Type} (model : P → X → ℚ × ℚ)
    (lsm : ℚ × ℚ → ℚ × ℚ) (optimStep : S → P → List (X × Nat) → S × P)
    (s0 : S) (p0 : P) (batches : List (List (X × Nat))) : (ℚ × ℚ) × P :=
  let fin := batches.foldl (batchStep model lsm optimStep) ⟨0, 0, 0, p0, s0⟩
  ((fin.running_loss / fin.num_total, fin.num_correct / fin.num_total), fin.params)

/-- Embeds `train_epoch` (model_main.py, lines 115-156).  The function takes
no optimizer state from its caller: `optim = torch.optim.Adam(...)` is
constructed at entry, so every invocation starts the batch loop from the
freshly-constructed Adam state `adamInit` (an abstract external constant of
the torch collaborator, as are the forward function `model`, the
`nn.LogSoftmax` map `lsm` and the gradient-step update `optimStep`). -/
def train_epoch {X P S : Type} (model : P → X → ℚ × ℚ)
    (lsm : ℚ × ℚ → ℚ × ℚ) (optimStep : S → P → List (X × Nat) → S × P)
    (adamInit : S) (p0 : P) (batches : List (List (X × Nat))) : (ℚ × ℚ) × P :=
  train_epoch_from model lsm optimStep adamInit p0 batches

/-- The per-batch statistics `(batch_loss, correct_count, batch_size)` of an
epoch, computed along the trace of parameter/optimizer states; the loss of a
batch is the weighted NLL (weight pair `w`) of the log-softmax outputs under
the parameters current at that batch. -/
def epochBatchStats {X P S : Type} (model : P → X → ℚ × ℚ)
    (lsm : ℚ × ℚ → ℚ × ℚ) (optimStep : S → P → List (X × Nat) → S × P)
    (w : ℚ × ℚ) : S → P → List (List (X × Nat)) → List (ℚ × ℚ × ℚ)
  | _, _, [] => []
  | s, p, b :: bs =>
    (nll_loss w (b.map (fun xy => (lsm (model p xy.1), xy.2))),
     (((b.map (fun xy => (lsm (model p xy.1), xy.2))).filter
        (fun r => decide (predOf r.1 = r.2))).length : ℚ),
     (b.length : ℚ)) ::
      epochBatchStats model lsm optimStep w (optimStep s p b).1 (optimStep s p b).2 bs

/-- The command-line arguments of `model_main.py` (lines 176-204).
`evalMode` is the `--eval` flag. -/
structure Args where
  evalMode : Bool
  model_name : String
  model_path : Option String
  eval_output : Option String
  batch_size : Nat
  num_epochs : Nat
  lr : ℚ
  comment : Option String
  track : String
  features : String
  is_eval : Bool
  eval_part : Nat
  deriving DecidableEq

/-- Values accepted by `assert args.features in ['mfcc', 'spect', 'cqcc']` (line 210). -/
def validFeatures : List String := ["mfcc", "spect", "cqcc"]

/-- Values accepted by `assert track in ['logical', 'physical']` (line 218). -/
def validTracks : List String := ["logical", "physical"]

/-- The seven `--model_name` values recognized by the dispatch chain of
lines 230-243; any other value leaves `model_cls` unassigned. -/
def knownModelNames : List String :=
  ["mfcc", "spect", "cqcc", "resnet18", "mobilenet_v2", "senet50", "senet20"]

/-- The run identifier `model_tag` (lines 211-216): built from track,
features, model name, epoch count, batch size and learning rate, with the
optional comment appended.  Number-to-text rendering is Lean's `toString`
(the exact digits of the tag are irrelevant to the properties proved). -/
def modelTag (a : Args) : String :=
  let base := "model_" ++ a.track ++ "_" ++ a.features ++ "_" ++ a.model_name
    ++ "_" ++ toString a.num_epochs ++ "_" ++ toString a.batch_size ++ "_"
    ++ toString a.lr
  match a.comment with
  | some c => base ++ "_" ++ c
  | none => base

/-- Observable outcome of one `__main__` run: directories created (in
order), directories removed by the exception handler (in order), lines
printed by the handler, the uncaught exception if any, and the process exit
status (an uncaught Python exception exits the interpreter with status 1;
`sys.exit(0)` and falling off the end of the script exit with status 0). -/
structure MainResult where
  createdDirs : List String
  removedDirs : List String
  printed : List String
  uncaught : Option PyError
  exitCode : Nat
  deriving DecidableEq

/-- Embeds the `__main__` control flow of model_main.py (lines 175-304) as
observed through directory creation/removal, uncaught exceptions and the
exit status, starting from a filesystem without a `models` directory:

1. `os.mkdir('models')` (line 206);
2. `assert args.features in [...]` (line 210) — uncaught `AssertionError`;
3. `assert track in [...]` (line 218) — uncaught `AssertionError`;
4. `os.mkdir(model_save_path)` i.e. `models/<tag>` (line 221);
5. unrecognized `--model_name` leaves `model_cls` unassigned, so the
   construction `model_cls(num_classes=2)` (line 259) raises an uncaught
   `NameError`;
6. in eval mode, `assert args.eval_output`/`assert args.model_path`
   (lines 267-268) — uncaught `AssertionError`s — then
   `produce_evaluation_file` and `sys.exit(0)`;
7. otherwise `SummaryWriter`/`get_logger` create `logs/<tag>` (lines
   282-283) and the epoch loop runs inside `try:`; whether some exception is
   raised during it is the abstract external event `trainRaises`.  The bare
   `except:` (lines 301-304) prints `Error and Exit`, removes `logs/<tag>`
   then `models/<tag>`, and — not re-raising and not calling `sys.exit` —
   lets the script end normally with exit status 0.

Dataset construction, checkpoint loading/saving and the evaluation-file
write are external collaborator actions assumed to succeed; the epoch loop's
possible failure is the point modelled by `trainRaises`. -/
def runMain (a : Args) (trainRaises : Bool) : MainResult :=
  let d0 := ["models"]
  if a.features ∈ validFeatures then
    let tag := modelTag a
    if a.track ∈ validTracks then
      let d1 := d0 ++ ["models/" ++ tag]
      if a.model_name ∈ knownModelNames then
        if a.evalMode then
          if a.eval_output = none then
            ⟨d1, [], [], some (PyError.assertionError "You must provide an output path"), 1⟩
          else if a.model_path = none then
            ⟨d1, [], [], some (PyError.assertionError "You must provide model checkpoint"), 1⟩
          else
            ⟨d1, [], [], none, 0⟩
        else
          let d2 := d1 ++ ["logs/" ++ tag]
          if trainRaises then
            ⟨d2, ["logs/" ++ tag, "models/" ++ tag], ["Error and Exit"], none, 0⟩
          else
            ⟨d2, [], [], none, 0⟩
      else
        ⟨d1, [], [], some PyError.nameErrorModelCls, 1⟩
    else
      ⟨d0, [], [], some (PyError.assertionError "Invalid track given"), 1⟩
  else
    ⟨d0, [], [], some (PyError.assertionError "Not supported feature"), 1⟩

/-- A well-formed training configuration (used by concrete instances). -/
def cfgTrain : Args :=
  ⟨false, "resnet18", none, none, 30, 100, 1, none, "physical", "spect", false, 0⟩

/-- An eval-mode configuration with `--eval_output` missing. -/
def cfgEvalNoOutput : Args :=
  ⟨true, "resnet18", some "m.pth", none, 30, 100, 1, none, "physical", "spect", false, 0⟩

/-- An eval-mode configuration with `--model_path` missing. -/
def cfgEvalNoModel : Args :=
  ⟨true, "resnet18", none, some "out.txt", 30, 100, 1, none, "physical", "spect", false, 0⟩

/-- A configuration whose `--model_name` is not one of the seven recognized
names. -/
def cfgBadModel : Args :=
  ⟨false, "vgg16", none, none, 30, 100, 1, none, "physical", "spect", false, 0⟩

/-- The float threshold `np.finfo(np.float32).tiny` of the normalization
step, as an exact rational (`2^(-126)`). -/
def float32Tiny : ℚ := 1 / 2 ^ 126

/-- A degenerate concrete instance of the `librosa.feature.mfcc` collaborator
contract (one empty row per requested coefficient), used to instantiate
contract-parametrized statements. -/
def constMfcc : Nat → Nat → List ℚ → List (List ℚ) :=
  fun _ n _ => List.replicate n []

/-! ### Helper lemmas -/

theorem npRepeat_length {α : Type} (x : List α) (n : Nat) :
    (npRepeat x n).length = x.length * n := by
  induction x with
  | nil => simp [npRepeat]
  | cons a t ih => simp [npRepeat, ih, Nat.succ_mul]; ring

theorem mem_of_mem_npRepeat {α : Type} {a : α} {x : List α} {n : Nat}
    (h : a ∈ npRepeat x n) : a ∈ x := by
  induction x with
  | nil => simp [npRepeat] at h
  | cons b t ih =>
    simp only [npRepeat, List.mem_append] at h
    rcases h with h | h
    · rw [List.eq_of_mem_replicate h]
      exact List.mem_cons_self b t
    · exact List.mem_cons_of_mem b (ih h)

theorem lt_mul_div_succ (m : Nat) {L : Nat} (hL : 0 < L) :
    m < L * (m / L + 1) := by
  have h1 := Nat.div_add_mod m L
  have h2 := Nat.mod_lt m hL
  calc m = L * (m / L) + m % L := h1.symm
    _ < L * (m / L) + L := Nat.add_lt_add_left h2 _
    _ = L * (m / L + 1) := by rw [Nat.mul_add, Nat.mul_one]

/-! ### Claim theorems: the length-fitting operation `pad` -/

/-- C8: for every waveform whose length is at least `max_len`, `pad` returns
exactly the first `max_len` samples of the input (deterministic prefix
truncation). -/
theorem C8_pad_long_input_take {α : Type} (x : List α) (max_len : Nat)
    (h : max_len ≤ x.length) :
    pad x max_len = Except.ok (x.take max_len) := by
  simp [pad, h]

/-- C8 witness at a concrete input. -/
theorem C8_pad_long_input_take_witness :
    3 ≤ ([10, 20, 30, 40, 50] : List Nat).length ∧
      pad ([10, 20, 30, 40, 50] : List Nat) 3
        = Except.ok (([10, 20, 30, 40, 50] : List Nat).take 3) :=
  ⟨by decide, C8_pad_long_input_take [10, 20, 30, 40, 50] 3 (by decide)⟩

/-- C1 counterexample: the claim says the repeat factor is
`⌈max_len / len⌉ + 1`; on the waveform `[10, 20, 30]` with target length 7
the code's factor is `⌊7/3⌋ + 1 = 3` while the claimed factor is
`⌈7/3⌉ + 1 = 4`, and the resulting outputs differ
(`[10,10,10,20,20,20,30]` versus `[10,10,10,10,20,20,20]`). -/
theorem C1_pad_repeat_factor_counterexample :
    pad ([10, 20, 30] : List Nat) 7 = Except.ok [10, 10, 10, 20, 20, 20, 30]
    ∧ padSpecCeil ([10, 20, 30] : List Nat) 7 = [10, 10, 10, 10, 20, 20, 20]
    ∧ ([10, 10, 10, 20, 20, 20, 30] : List Nat) ≠ [10, 10, 10, 10, 20, 20, 20] :=
  ⟨rfl, rfl, by decide⟩

/-- C1 (amended): for a nonempty waveform shorter than the target length,
`pad` produces its output by element-wise repetition with integer repeat
factor `⌊max_len / len⌋ + 1` (the float `max_len / len` is truncated, not
rounded up) followed by truncation; the output has length exactly `max_len`
and every output element is drawn from the input sequence. -/
theorem C1_pad_short_elementwise_repeat {α : Type} (x : List α) (max_len : Nat)
    (h0 : x ≠ []) (h : x.length < max_len) :
    pad x max_len = Except.ok ((npRepeat x (max_len / x.length + 1)).take max_len)
    ∧ ((npRepeat x (max_len / x.length + 1)).take max_len).length = max_len
    ∧ ∀ a ∈ (npRepeat x (max_len / x.length + 1)).take max_len, a ∈ x := by
  have hlen : x.length ≠ 0 := fun hc => h0 (List.length_eq_zero.mp hc)
  have hpos : 0 < x.length := Nat.pos_of_ne_zero hlen
  refine ⟨?_, ?_, ?_⟩
  · simp [pad, Nat.not_le.mpr h, hlen]
  · rw [List.length_take, npRepeat_length]
    exact Nat.min_eq_left (Nat.le_of_lt (lt_mul_div_succ max_len hpos))
  · intro a ha
    exact mem_of_mem_npRepeat (List.take_subset _ _ ha)

/-- C1 witness at a concrete input. -/
theorem C1_pad_short_elementwise_repeat_witness :
    (([10, 20, 30] : List Nat) ≠ [] ∧ ([10, 20, 30] : List Nat).length < 7) ∧
      (pad ([10, 20, 30] : List Nat) 7
          = Except.ok ((npRepeat [10, 20, 30] (7 / ([10, 20, 30] : List Nat).length + 1)).take 7)
        ∧ ((npRepeat ([10, 20, 30] : List Nat) (7 / ([10, 20, 30] : List Nat).length + 1)).take 7).length = 7
        ∧ ∀ a ∈ (npRepeat ([10, 20, 30] : List Nat) (7 / ([10, 20, 30] : List Nat).length + 1)).take 7,
            a ∈ ([10, 20, 30] : List Nat)) :=
  ⟨⟨by decide, by decide⟩,
    C1_pad_short_elementwise_repeat [10, 20, 30] 7 (by decide) (by decide)⟩

/-- C3 counterexample: on the zero-length waveform the code evaluates
`max_len / 0` and raises `ZeroDivisionError`; it does not produce the
explicit `EmptyInput` error the claim describes. -/
theorem C3_pad_empty_counterexample :
    pad ([] : List ℚ) 64000 = Except.error PyError.zeroDivisionError
    ∧ PyError.zeroDivisionError ≠ PyError.emptyInput :=
  ⟨rfl, by decide⟩

/-- C3 (amended): applying `pad` to a zero-length waveform (with a positive
target length) performs the division `max_len / 0` and fails with
`ZeroDivisionError` — it does fail rather than produce a value or NaN, but
via division by zero, not an explicit `EmptyInput` error. -/
theorem C3_pad_empty_raises_zero_division {α : Type} (x : List α) (max_len : Nat)
    (hx : x.length = 0) (hm : 0 < max_len) :
    pad x max_len = Except.error PyError.zeroDivisionError := by
  have hx' : x = [] := List.length_eq_zero.mp hx
  subst hx'
  simp only [pad, List.length_nil]
  rw [if_neg (by omega)]
  simp

/-- C3 witness at a concrete input. -/
theorem C3_pad_empty_raises_zero_division_witness :
    (([] : List Nat).length = 0 ∧ 0 < 64000) ∧
      pad ([] : List Nat) 64000 = Except.error PyError.zeroDivisionError :=
  ⟨⟨by decide, by decide⟩,
    C3_pad_empty_raises_zero_division ([] : List Nat) 64000 (by decide) (by decide)⟩

/-! ### Claim theorems: the amplitude-normalization step -/

theorem foldr_max_div (l : List ℚ) {p : ℚ} (hp : 0 < p) :
    (l.map (fun a => a / p)).foldr max 0 = l.foldr max 0 / p := by
  induction l with
  | nil => simp
  | cons a t ih =>
    simp only [List.map_cons, List.foldr_cons, ih, max_div_div_right hp.le]

theorem peakAbs_map_div (x : List ℚ) {p : ℚ} (hp : 0 < p) :
    peakAbs (x.map (fun a => a / p)) = peakAbs x / p := by
  unfold peakAbs
  rw [List.map_map]
  have h1 : ((fun a => |a|) ∘ fun a => a / p) = (fun a => a / p) ∘ (fun a => |a|) := by
    funext a
    simp [Function.comp, abs_div, abs_of_pos hp]
  rw [h1, ← List.map_map]
  exact foldr_max_div (x.map (fun a => |a|)) hp

theorem peakAbs_eq_zero_of_all_zero {x : List ℚ} (h : ∀ a ∈ x, a = 0) :
    peakAbs x = 0 := by
  induction x with
  | nil => rfl
  | cons a t ih =>
    have ha : a = 0 := h a (List.mem_cons_self a t)
    have ht : peakAbs t = 0 := ih (fun b hb => h b (List.mem_cons_of_mem a hb))
    simp only [peakAbs, List.map_cons, List.foldr_cons] at ht ⊢
    simp [ha, ht]

/-- C7 counterexample: on the all-zero waveform `[0, 0, 0]` the
normalization step returns the input unchanged — it produces a value (whose
peak absolute amplitude is `0`, not `1`) instead of failing explicitly. -/
theorem C7_normalize_all_zero_counterexample :
    librosa_util_normalize float32Tiny [0, 0, 0] = [0, 0, 0]
    ∧ peakAbs (librosa_util_normalize float32Tiny [0, 0, 0]) = 0
    ∧ (0 : ℚ) ≠ 1 := by
  refine ⟨?_, ?_, by norm_num⟩ <;>
    norm_num [librosa_util_normalize, peakAbs, float32Tiny]

/-- C7 (amended): for any input whose peak absolute amplitude is at least
the positive threshold (`np.finfo(dtype).tiny`; every non-degenerate
non-zero waveform satisfies this), the normalization step's output has peak
absolute amplitude exactly `1`; for an all-zero input the divisor is clamped
to `1` and the step returns the input unchanged — it does not fail. -/
theorem C7_normalize_peak (threshold : ℚ) (hθ : 0 < threshold) (x : List ℚ) :
    (threshold ≤ peakAbs x → peakAbs (librosa_util_normalize threshold x) = 1)
    ∧ ((∀ a ∈ x, a = 0) → librosa_util_normalize threshold x = x) := by
  constructor
  · intro hpk
    have hpos : 0 < peakAbs x := lt_of_lt_of_le hθ hpk
    have hne : ¬ (peakAbs x < threshold) := not_lt.mpr hpk
    simp only [librosa_util_normalize, hne, if_false]
    rw [peakAbs_map_div x hpos]
    exact div_self (ne_of_gt hpos)
  · intro hz
    have h0 : peakAbs x = 0 := peakAbs_eq_zero_of_all_zero hz
    simp only [librosa_util_normalize, h0, hθ, if_pos]
    simp

/-- C7 witness at a concrete input. -/
theorem C7_normalize_peak_witness :
    0 < (1 : ℚ) ∧
      (((1 : ℚ) ≤ peakAbs [1/2, -2] →
          peakAbs (librosa_util_normalize 1 [1/2, -2]) = 1)
        ∧ ((∀ a ∈ ([1/2, -2] : List ℚ), a = 0) →
            librosa_util_normalize 1 [1/2, -2] = [1/2, -2])) :=
  ⟨by norm_num, C7_normalize_peak 1 (by norm_num) [1/2, -2]⟩

/-! ### Claim theorems: the MFCC feature assembly -/

/-- C9: under the external collaborators' documented contracts —
`librosa.feature.mfcc` returns one row per requested coefficient and
`librosa.feature.delta` preserves the shape of its input — the feature map
built by `compute_mfcc_feats` has exactly `72 = 24 + 24 + 24` rows for every
input waveform, and is the row-wise concatenation of the 24 base
coefficients, their first derivatives and their second derivatives. -/
theorem C9_mfcc_feats_72_rows (mfccF : Nat → Nat → List ℚ → List (List ℚ))
    (deltaF : List (List ℚ) → List (List ℚ)) (x : List ℚ)
    (hm : ∀ sr n w, (mfccF sr n w).length = n)
    (hd : ∀ M, (deltaF M).length = M.length) :
    (compute_mfcc_feats mfccF deltaF x).length = 72
    ∧ compute_mfcc_feats mfccF deltaF x
        = mfccF 16000 24 x ++ deltaF (mfccF 16000 24 x)
            ++ deltaF (deltaF (mfccF 16000 24 x)) := by
  constructor
  · simp [compute_mfcc_feats, hd, hm]
  · rfl

/-- C9 witness at concrete collaborator instances. -/
theorem C9_mfcc_feats_72_rows_witness :
    (∀ sr n w, (constMfcc sr n w).length = n)
    ∧ (compute_mfcc_feats constMfcc id [1, 2]).length = 72 :=
  ⟨fun _ n _ => List.length_replicate n [],
    (C9_mfcc_feats_72_rows constMfcc id [1, 2]
      (fun _ n _ => List.length_replicate n []) (fun _ => rfl)).1⟩

/-! ### Claim theorems: the score-file writer `produce_evaluation_file` -/

theorem toBatchesAux_flatten {α : Type} (bs : Nat) (hbs : 0 < bs) :
    ∀ (fuel : Nat) (l : List α), l.length ≤ fuel →
      (toBatchesAux bs fuel l).flatten = l := by
  intro fuel
  induction fuel with
  | zero =>
    intro l hl
    have h0 : l = [] := List.length_eq_zero.mp (Nat.le_zero.mp hl)
    subst h0
    rfl
  | succ n ih =>
    intro l hl
    cases l with
    | nil => rfl
    | cons a t =>
      simp only [toBatchesAux, List.flatten_cons]
      rw [ih ((a :: t).drop bs) ?_]
      · exact List.take_append_drop bs (a :: t)
      · rw [List.length_drop]
        simp only [List.length_cons] at hl ⊢
        omega

theorem toBatches_flatten {α : Type} (bs : Nat) (hbs : 0 < bs) (l : List α) :
    (toBatches bs l).flatten = l :=
  toBatchesAux_flatten bs hbs l.length l (Nat.le_refl _)

theorem evalAcc_foldl {X : Type} (net : X → ℚ × ℚ) (sysInv : Nat → String) :
    ∀ (batches : List (List (EvalSample X))) (acc : ScoreAcc),
      batches.foldl (evalAccStep net sysInv) acc =
        ⟨acc.fname_list ++ batches.flatten.map (fun s => s.fname),
         acc.sys_id_list ++ batches.flatten.map (fun s => sysInv s.sys_id),
         acc.key_list ++ batches.flatten.map (fun s => keyOf s.key),
         acc.score_list ++ batches.flatten.map (scoreOf net)⟩ := by
  intro batches
  induction batches with
  | nil => intro acc; simp
  | cons b bs ih =>
    intro acc
    simp only [List.foldl_cons, ih, evalAccStep, List.flatten_cons, List.map_append,
      List.append_assoc]

/-- C5: `produce_evaluation_file` writes exactly one line per sample, in
dataset order; when the dataset is not a blind-evaluation set the line is
`filename system_id key score` (key `bonafide` for label 1 and `spoof`
otherwise, system id resolved through `sysid_dict_inv`), and when it is
blind the line is `filename score`; the per-sample score is the class-1
logit minus the class-0 logit. -/
theorem C5_produce_evaluation_file_lines {X : Type} (net : X → ℚ × ℚ)
    (ds : EvalDataset X) :
    produce_evaluation_file net ds
        = ds.samples.map (lineOf net ds.sysid_dict_inv ds.is_eval)
    ∧ (produce_evaluation_file net ds).length = ds.samples.length := by
  have hmain : produce_evaluation_file net ds
      = ds.samples.map (lineOf net ds.sysid_dict_inv ds.is_eval) := by
    unfold produce_evaluation_file
    rw [evalAcc_foldl]
    simp only [List.nil_append]
    rw [toBatches_flatten 32 (by norm_num)]
    rw [List.zip_map', List.zip_map', List.zip_map', List.map_map]
    rfl
  exact ⟨hmain, by rw [hmain, List.length_map]⟩

/-! ### Claim theorems: the per-epoch training procedure `train_epoch` -/

theorem epochBatchStats_sizes {X P S : Type} (model : P → X → ℚ × ℚ)
    (lsm : ℚ × ℚ → ℚ × ℚ) (optimStep : S → P → List (X × Nat) → S × P)
    (w : ℚ × ℚ) :
    ∀ (batches : List (List (X × Nat))) (s : S) (p : P),
      (epochBatchStats model lsm optimStep w s p batches).map (fun t => t.2.2)
        = batches.map (fun b => (b.length : ℚ)) := by
  intro batches
  induction batches with
  | nil => intro s p; rfl
  | cons b bs ih =>
    intro s p
    simp only [epochBatchStats, List.map_cons, ih]

theorem epoch_foldl_spec {X P S : Type} (model : P → X → ℚ × ℚ)
    (lsm : ℚ × ℚ → ℚ × ℚ) (optimStep : S → P → List (X × Nat) → S × P) :
    ∀ (batches : List (List (X × Nat))) (st : EpochState P S),
      (batches.foldl (batchStep model lsm optimStep) st).running_loss
          = st.running_loss
            + ((epochBatchStats model lsm optimStep nllWeight st.optState st.params
                batches).map (fun t => t.1 * t.2.2)).sum
      ∧ (batches.foldl (batchStep model lsm optimStep) st).num_correct
          = st.num_correct
            + ((epochBatchStats model lsm optimStep nllWeight st.optState st.params
                batches).map (fun t => t.2.1)).sum
      ∧ (batches.foldl (batchStep model lsm optimStep) st).num_total
          = st.num_total
            + ((epochBatchStats model lsm optimStep nllWeight st.optState st.params
                batches).map (fun t => t.2.2)).sum := by
  intro batches
  induction batches with
  | nil => intro st; simp [epochBatchStats]
  | cons b bs ih =>
    intro st
    obtain ⟨h1, h2, h3⟩ := ih (batchStep model lsm optimStep st b)
    simp only [List.foldl_cons, epochBatchStats, List.map_cons, List.sum_cons]
    refine ⟨?_, ?_, ?_⟩
    · rw [h1]; simp only [batchStep]; ring
    · rw [h2]; simp only [batchStep]; ring
    · rw [h3]; simp only [batchStep]; ring

theorem sum_cast_lengths {α : Type} (batches : List (List α)) :
    (batches.map (fun b => (b.length : ℚ))).sum = ((batches.flatten).length : ℚ) := by
  induction batches with
  | nil => simp
  | cons b bs ih =>
    simp only [List.map_cons, List.sum_cons, List.flatten_cons, List.length_append,
      Nat.cast_add, ih]

/-- C6: `train_epoch` takes no optimizer state from its caller — each
invocation runs the epoch from the freshly-constructed Adam state
`adamInit`, so optimizer state does not persist across epochs; the
criterion's class-weight vector is `nllWeight = (1, 9)` over log-softmax
outputs; and the returned pair is (sum over batches of the batch's weighted
NLL loss times the batch size, divided by the total sample count; fraction
of correctly predicted samples), where the total sample count equals the
number of samples over all batches. -/
theorem C6_train_epoch_fresh_optim_and_averages {X P S : Type}
    (model : P → X → ℚ × ℚ) (lsm : ℚ × ℚ → ℚ × ℚ)
    (optimStep : S → P → List (X × Nat) → S × P) (adamInit : S) (p0 : P)
    (batches : List (List (X × Nat))) :
    train_epoch model lsm optimStep adamInit p0 batches
        = train_epoch_from model lsm optimStep adamInit p0 batches
    ∧ nllWeight = (1, 9)
    ∧ (train_epoch model lsm optimStep adamInit p0 batches).1.1
        = ((epochBatchStats model lsm optimStep nllWeight adamInit p0 batches).map
            (fun t => t.1 * t.2.2)).sum
          / (batches.map (fun b => (b.length : ℚ))).sum
    ∧ (train_epoch model lsm optimStep adamInit p0 batches).1.2
        = ((epochBatchStats model lsm optimStep nllWeight adamInit p0 batches).map
            (fun t => t.2.1)).sum
          / (batches.map (fun b => (b.length : ℚ))).sum
    ∧ (batches.map (fun b => (b.length : ℚ))).sum = ((batches.flatten).length : ℚ) := by
  obtain ⟨h1, h2, h3⟩ :=
    epoch_foldl_spec model lsm optimStep batches ⟨0, 0, 0, p0, adamInit⟩
  have hsz : ((epochBatchStats model lsm optimStep nllWeight adamInit p0 batches).map
      (fun t => t.2.2)).sum = (batches.map (fun b => (b.length : ℚ))).sum := by
    rw [epochBatchStats_sizes]
  refine ⟨rfl, rfl, ?_, ?_, sum_cast_lengths batches⟩
  · show (train_epoch_from model lsm optimStep adamInit p0 batches).1.1 = _
    simp only [train_epoch_from]
    rw [h1, h3, hsz, zero_add, zero_add]
  · show (train_epoch_from model lsm optimStep adamInit p0 batches).1.2 = _
    simp only [train_epoch_from]
    rw [h2, h3, hsz, zero_add, zero_add]

/-! ### Claim theorems: the `__main__` control flow -/

/-- C2 counterexample: on a concrete well-formed training configuration, an
exception raised during the epoch loop makes the handler delete both run
directories and print an error message, but the exception is swallowed by
the bare `except:` and the process terminates normally with exit status 0 —
there is no failure indication in the exit status and no propagated
exception. -/
theorem C2_swallowed_exception_counterexample :
    (runMain cfgTrain true).removedDirs
        = ["logs/" ++ modelTag cfgTrain, "models/" ++ modelTag cfgTrain]
    ∧ (runMain cfgTrain true).uncaught = none
    ∧ (runMain cfgTrain true).exitCode = 0
    ∧ (runMain cfgTrain true).printed = ["Error and Exit"] := by
  decide

/-- C2 (amended): when any exception is raised during the epoch training
loop of a well-formed training run, the top-level handler deletes the entire
run's log directory and the entire run's model directory (in that order) and
prints `Error and Exit`; the exception is swallowed, and the process then
terminates normally with exit status 0 rather than with a failure
indication. -/
theorem C2_training_failure_cleanup (a : Args)
    (hf : a.features ∈ validFeatures) (ht : a.track ∈ validTracks)
    (hm : a.model_name ∈ knownModelNames) (he : a.evalMode = false) :
    (runMain a true).removedDirs = ["logs/" ++ modelTag a, "models/" ++ modelTag a]
    ∧ "Error and Exit" ∈ (runMain a true).printed
    ∧ (runMain a true).uncaught = none
    ∧ (runMain a true).exitCode = 0 := by
  simp [runMain, hf, ht, hm, he]

/-- C2 witness at a concrete configuration. -/
theorem C2_training_failure_cleanup_witness :
    (cfgTrain.features ∈ validFeatures ∧ cfgTrain.track ∈ validTracks
      ∧ cfgTrain.model_name ∈ knownModelNames ∧ cfgTrain.evalMode = false)
    ∧ ((runMain cfgTrain true).removedDirs
          = ["logs/" ++ modelTag cfgTrain, "models/" ++ modelTag cfgTrain]
      ∧ "Error and Exit" ∈ (runMain cfgTrain true).printed
      ∧ (runMain cfgTrain true).uncaught = none
      ∧ (runMain cfgTrain true).exitCode = 0) :=
  ⟨⟨by decide, by decide, by decide, by decide⟩,
    C2_training_failure_cleanup cfgTrain (by decide) (by decide) (by decide) (by decide)⟩

/-- C4 counterexample: with `--eval` set and `--eval_output` missing (an
otherwise well-formed configuration), the program does fail on the eval-mode
assert, but only after the run's model directory `models/<run_id>` has
already been created — contradicting "before any run directory has been
created". -/
theorem C4_eval_assert_after_mkdir_counterexample :
    (runMain cfgEvalNoOutput false).uncaught
        = some (PyError.assertionError "You must provide an output path")
    ∧ "models/" ++ modelTag cfgEvalNoOutput ∈ (runMain cfgEvalNoOutput false).createdDirs := by
  decide

/-- C4 (amended): an invalid `--features` or `--track` value fails on an
assert before any run directory (`models/<run_id>` or `logs/<run_id>`) has
been created (only the parent `models` directory exists); but a missing
`--eval_output` or `--model_path` in eval mode fails only after the run's
model directory `models/<run_id>` has already been created (the log
directory is not created in eval mode). -/
theorem C4_config_error_timing (a : Args) (t : Bool) :
    ((a.features ∉ validFeatures ∨ a.track ∉ validTracks) →
      (runMain a t).uncaught.isSome = true
      ∧ (runMain a t).createdDirs = ["models"])
    ∧ (a.features ∈ validFeatures → a.track ∈ validTracks →
        a.model_name ∈ knownModelNames → a.evalMode = true →
        (a.eval_output = none ∨ a.model_path = none) →
        (runMain a t).uncaught.isSome = true
        ∧ (runMain a t).createdDirs = ["models", "models/" ++ modelTag a]) := by
  constructor
  · intro h
    rcases h with h | h
    · simp [runMain, h]
    · by_cases hf : a.features ∈ validFeatures
      · simp [runMain, hf, h]
      · simp [runMain, hf]
  · intro hf ht hm he hor
    by_cases ho : a.eval_output = none
    · simp [runMain, hf, ht, hm, he, ho]
    · rcases hor with h | hp
      · exact absurd h ho
      · simp [runMain, hf, ht, hm, he, ho, hp]

/-- C4 witness at a concrete configuration (eval mode, `--model_path`
missing). -/
theorem C4_config_error_timing_witness :
    (cfgEvalNoModel.features ∈ validFeatures ∧ cfgEvalNoModel.track ∈ validTracks
      ∧ cfgEvalNoModel.model_name ∈ knownModelNames ∧ cfgEvalNoModel.evalMode = true
      ∧ (cfgEvalNoModel.eval_output = none ∨ cfgEvalNoModel.model_path = none))
    ∧ ((runMain cfgEvalNoModel false).uncaught.isSome = true
      ∧ (runMain cfgEvalNoModel false).createdDirs
          = ["models", "models/" ++ modelTag cfgEvalNoModel]) :=
  ⟨⟨by decide, by decide, by decide, by decide, Or.inr (by decide)⟩,
    (C4_config_error_timing cfgEvalNoModel false).2 (by decide) (by decide) (by decide)
      (by decide) (Or.inr (by decide))⟩

/-- C10: for every `--model_name` value outside the seven recognized names
(with valid `--features` and `--track`), `model_cls` is never assigned and
model construction fails with an undefined-name error, and this failure
occurs only after the run's model directory `models/<run_id>` has already
been created — `model_name` is not validated by an assert the way
`--features` and `--track` are. -/
theorem C10_unknown_model_name (a : Args) (t : Bool)
    (hf : a.features ∈ validFeatures) (ht : a.track ∈ validTracks)
    (hm : a.model_name ∉ knownModelNames) :
    (runMain a t).uncaught = some PyError.nameErrorModelCls
    ∧ "models/" ++ modelTag a ∈ (runMain a t).createdDirs := by
  simp [runMain, hf, ht, hm]

/-- C10 witness at a concrete configuration. -/
theorem C10_unknown_model_name_witness :
    (cfgBadModel.features ∈ validFeatures ∧ cfgBadModel.track ∈ validTracks
      ∧ cfgBadModel.model_name ∉ knownModelNames)
    ∧ ((runMain cfgBadModel false).uncaught = some PyError.nameErrorModelCls
      ∧ "models/" ++ modelTag cfgBadModel ∈ (runMain cfgBadModel false).createdDirs) :=
  ⟨⟨by decide, by decide, by decide⟩,
    C10_unknown_model_name cfgBadModel false (by decide) (by decide) (by decide)⟩

end ASVspoof
